import Mathlib

/-!
Shallow embedding of the funding-rate arbitrage engine for specification
checking.  Quantities that the C++ source stores as `double` are modelled
as rationals (`ℚ`), timestamps and durations as integers (`ℤ`, in seconds
unless stated otherwise), and `std::map` containers as association lists
over `String` keys.  Fallible C++ code (functions that throw) is modelled
with `Except`.  Each definition is translated from the function it names
in the source tree.
-/

namespace FundingArb

/-! ### Enumerations (src/market/types/execution_types.h) -/

/-- Order side, from `enum class OrderSide`. -/
inductive OrderSide where
  | BUY
  | SELL
deriving DecidableEq

/-- Order type, from `enum class OrderType`. -/
inductive OrderType where
  | MARKET
  | LIMIT
  | POST_ONLY
  | STOP_MARKET
  | STOP_LIMIT
  | TAKE_PROFIT
  | LIQUIDATION
deriving DecidableEq

/-- Order status, from `enum class OrderStatus`. -/
inductive OrderStatus where
  | NEW
  | PARTIALLY_FILLED
  | FILLED
  | CANCELED
  | REJECTED
  | EXPIRED
  | PENDING_CANCEL
deriving DecidableEq

/-- Time in force, from `enum class TimeInForce`. -/
inductive TimeInForce where
  | GTC
  | IOC
  | FOK
  | GTX
deriving DecidableEq

/-- Position side, from `enum class PositionSide`. -/
inductive PositionSide where
  | LONG
  | SHORT
  | BOTH
deriving DecidableEq

/-- Margin type, from `enum class MarginType`. -/
inductive MarginType where
  | ISOLATED
  | CROSS
deriving DecidableEq

/-- Translation of `orderSideToString` (execution_types.h). -/
def orderSideToString : OrderSide → String
  | .BUY => "BUY"
  | .SELL => "SELL"

/-- Translation of `orderTypeToString` (execution_types.h). -/
def orderTypeToString : OrderType → String
  | .MARKET => "MARKET"
  | .LIMIT => "LIMIT"
  | .POST_ONLY => "POST_ONLY"
  | .STOP_MARKET => "STOP_MARKET"
  | .STOP_LIMIT => "STOP_LIMIT"
  | .TAKE_PROFIT => "TAKE_PROFIT"
  | .LIQUIDATION => "LIQUIDATION"

/-- Translation of `orderStatusToString` (execution_types.h). -/
def orderStatusToString : OrderStatus → String
  | .NEW => "NEW"
  | .PARTIALLY_FILLED => "PARTIALLY_FILLED"
  | .FILLED => "FILLED"
  | .CANCELED => "CANCELED"
  | .REJECTED => "REJECTED"
  | .EXPIRED => "EXPIRED"
  | .PENDING_CANCEL => "PENDING_CANCEL"

/-- Translation of `timeInForceToString` (execution_types.h). -/
def timeInForceToString : TimeInForce → String
  | .GTC => "GTC"
  | .IOC => "IOC"
  | .FOK => "FOK"
  | .GTX => "GTX"

/-- Translation of `positionSideToString` (execution_types.h). -/
def positionSideToString : PositionSide → String
  | .LONG => "LONG"
  | .SHORT => "SHORT"
  | .BOTH => "BOTH"

/-- Translation of `marginTypeToString` (execution_types.h). -/
def marginTypeToString : MarginType → String
  | .ISOLATED => "ISOLATED"
  | .CROSS => "CROSS"

/-- Translation of `stringToOrderSide` (execution_types.h); the C++
function throws `std::invalid_argument` on an unknown string, modelled
as `Except.error` carrying the exception message. -/
def stringToOrderSide (s : String) : Except String OrderSide :=
  if s = "BUY" then .ok .BUY
  else if s = "SELL" then .ok .SELL
  else .error ("Invalid order side: " ++ s)

/-- Translation of `stringToOrderType` (execution_types.h). -/
def stringToOrderType (s : String) : Except String OrderType :=
  if s = "MARKET" then .ok .MARKET
  else if s = "LIMIT" then .ok .LIMIT
  else if s = "POST_ONLY" then .ok .POST_ONLY
  else if s = "STOP_MARKET" then .ok .STOP_MARKET
  else if s = "STOP_LIMIT" then .ok .STOP_LIMIT
  else if s = "TAKE_PROFIT" then .ok .TAKE_PROFIT
  else if s = "LIQUIDATION" then .ok .LIQUIDATION
  else .error ("Invalid order type: " ++ s)

/-- Translation of `stringToOrderStatus` (execution_types.h). -/
def stringToOrderStatus (s : String) : Except String OrderStatus :=
  if s = "NEW" then .ok .NEW
  else if s = "PARTIALLY_FILLED" then .ok .PARTIALLY_FILLED
  else if s = "FILLED" then .ok .FILLED
  else if s = "CANCELED" then .ok .CANCELED
  else if s = "REJECTED" then .ok .REJECTED
  else if s = "EXPIRED" then .ok .EXPIRED
  else if s = "PENDING_CANCEL" then .ok .PENDING_CANCEL
  else .error ("Invalid order status: " ++ s)

/-- Translation of the margin-type string parse used by
`BinanceApi::getOpenPositions` (binance_api.cpp line 376):
`pos["marginType"].asString() == "isolated" ? ISOLATED : CROSS`.
This is the only string-to-`MarginType` conversion in the source;
no `stringToMarginType`, `stringToTimeInForce` or `stringToPositionSide`
function exists anywhere in the repository. -/
def marginTypeFromApi (s : String) : MarginType :=
  if s = "isolated" then .ISOLATED else .CROSS

/-! ### Order requests and the Order Manager cache
(src/market/types/execution_types.h, src/trading/risk/risk_types.h
`OrderManager`) -/

/-- Order request, from `struct OrderRequest`; only the fields the
modelled operations read are kept. -/
structure OrderRequest where
  symbol : String
  side : OrderSide
  type : OrderType
  quantity : ℚ
  price : ℚ := 0
deriving DecidableEq

/-- Order record, from `struct OrderInfo`; only the fields the modelled
operations read are kept. -/
structure OrderInfo where
  order_id : String
  symbol : String
  side : OrderSide
  type : OrderType
  status : OrderStatus
  original_quantity : ℚ
  executed_quantity : ℚ := 0
  price : ℚ := 0
deriving DecidableEq

/-- Lookup in an association-list model of `std::map<std::string, _>`. -/
def lookupOrd (m : List (String × OrderInfo)) (id : String) : Option OrderInfo :=
  (m.find? (fun p => p.1 == id)).map Prod.snd

/-- Key removal, modelling `std::map::erase`. -/
def eraseOrd (m : List (String × OrderInfo)) (id : String) : List (String × OrderInfo) :=
  m.filter (fun p => !(p.1 == id))

/-- Keyed insertion or overwrite, modelling `active_orders_[id] = o`. -/
def insertOrd (m : List (String × OrderInfo)) (id : String) (o : OrderInfo) :
    List (String × OrderInfo) :=
  eraseOrd m id ++ [(id, o)]

/-- The four statuses `OrderManager::updateOrderCache` treats as
terminal (risk_types.h lines 355-358). -/
def isTerminalStatus : OrderStatus → Bool
  | .FILLED => true
  | .CANCELED => true
  | .REJECTED => true
  | .EXPIRED => true
  | _ => false

/-- Translation of `OrderManager::updateOrderCache` (risk_types.h lines
353-363): a terminal record is erased from `active_orders_`, any other
record is stored under its id. -/
def updateOrderCache (m : List (String × OrderInfo)) (o : OrderInfo) :
    List (String × OrderInfo) :=
  if isTerminalStatus o.status then eraseOrd m o.order_id
  else insertOrd m o.order_id o

/-- Translation of the cache mutation inside `OrderManager::cancelOrder`
(risk_types.h lines 243-246): when the id is cached, its status field is
set to CANCELED in place; the record is not erased. -/
def setCanceledInCache (m : List (String × OrderInfo)) (id : String) :
    List (String × OrderInfo) :=
  if (lookupOrd m id).isSome then
    m.map (fun p => if p.1 == id then (p.1, { p.2 with status := OrderStatus.CANCELED }) else p)
  else m

/-- Translation of `OrderManager::cancelOrder` (risk_types.h lines
238-254).  `apiOutcome` is the result of `api_->cancelOrder`: `ok b` when
the adapter returned `b`, `error c` when it threw (the catch branch
returns false and leaves the cache unchanged).  Returns the boolean
result and the new `active_orders_` cache. -/
def cancelOrderModel (m : List (String × OrderInfo)) (id : String)
    (apiOutcome : Except ℤ Bool) : Bool × List (String × OrderInfo) :=
  match apiOutcome with
  | .ok true => (true, setCanceledInCache m id)
  | .ok false => (false, m)
  | .error _ => (false, m)

/-- Translation of `OrderManager::validateOrderRequest` (risk_types.h
lines 375-393): reject an empty symbol, a non-positive quantity, or a
non-market order with non-positive price. -/
def validateOrderRequest (r : OrderRequest) : Bool :=
  if r.symbol = "" then false
  else if r.quantity ≤ 0 then false
  else if r.type ≠ OrderType.MARKET ∧ r.price ≤ 0 then false
  else true

/-- Translation of `OrderManager::calculateSlippagePrice` (risk_types.h
lines 395-404): BUY pays `price * (1 + δ)`, SELL receives
`price * (1 - δ)` where δ is `price_deviation_threshold`. -/
def calculateSlippagePrice (threshold : ℚ) (side : OrderSide) (price : ℚ) : ℚ :=
  if side = OrderSide.BUY then price * (1 + threshold)
  else price * (1 - threshold)

/-- Translation of the request adjustment inside `OrderManager::placeOrder`
(risk_types.h lines 188-194): for any non-MARKET request the price is
replaced by the slippage-adjusted mark price and, when `use_post_only`
is set, the type is overwritten with POST_ONLY. -/
def adjustRequest (usePostOnly : Bool) (threshold markPrice : ℚ)
    (r : OrderRequest) : OrderRequest :=
  if r.type ≠ OrderType.MARKET then
    { r with
      price := calculateSlippagePrice threshold r.side markPrice
      type := if usePostOnly then OrderType.POST_ONLY else r.type }
  else r

/-- Translation of the validation-then-adjustment prefix of
`OrderManager::placeOrder` (risk_types.h lines 171-197), returning the
request as it is sent to `api_->placeOrder`; an invalid request throws
`std::invalid_argument`. -/
def placeOrderAdjusted (usePostOnly : Bool) (threshold markPrice : ℚ)
    (r : OrderRequest) : Except String OrderRequest :=
  if validateOrderRequest r then .ok (adjustRequest usePostOnly threshold markPrice r)
  else .error "Invalid order request"

/-! ### Exchange adapter retry policy (src/market/api/binance_api.cpp) -/

/-- The retriable HTTP status codes, from `retry_config_.retriable_status_codes`
(binance_api.cpp line 42 and rate_limiter.h `RetryConfig`). -/
def retriableStatusCodes : List ℤ := [408, 429, 500, 502, 503, 504]

/-- Translation of `BinanceApi::shouldRetry` (binance_api.cpp lines
483-489): no retry once `retry_count` has reached `max_retries`, and
otherwise only for a retriable status code. -/
def shouldRetry (maxRetries : ℕ) (statusCode : ℤ) (retryCount : ℕ) : Bool :=
  if retryCount ≥ maxRetries then false
  else retriableStatusCodes.contains statusCode

/-- The delay update `delay_ms *= retry_config_.backoff_multiplier`
(binance_api.cpp line 254); the `int` receives the truncated product,
and delays are non-negative so truncation toward zero is the floor. -/
def nextDelay (delay : ℤ) (multiplier : ℚ) : ℤ :=
  Int.floor ((delay : ℚ) * multiplier)

/-- The sequence of sleeps a retry loop starting at `delay` performs
over `n` retries: each retry sleeps the current delay and then scales it
by the backoff multiplier. -/
def delaysFrom (multiplier : ℚ) : ℤ → ℕ → List ℤ
  | _, 0 => []
  | delay, n + 1 => delay :: delaysFrom multiplier (nextDelay delay multiplier) n

/-- Translation of `BinanceApi::executeWithRetry` (binance_api.cpp lines
231-257).  `attempts` lists the outcome each successive invocation of
`func()` would produce, an exception being represented by the status
code `extractStatusCode` reads from its message.  `count` and `delay`
are the loop state `retry_count` and `delay_ms`.  Returns the surfaced
result, the number of attempts made, and the list of sleeps performed;
`none` only when `attempts` is too short to reach a verdict. -/
def runRetry {α : Type} (maxRetries : ℕ) (multiplier : ℚ) :
    ℕ → ℤ → List (Except ℤ α) → Option (Except ℤ α × ℕ × List ℤ)
  | _, _, [] => none
  | _, _, Except.ok v :: _ => some (.ok v, 1, [])
  | count, delay, Except.error c :: rest =>
    if shouldRetry maxRetries c count then
      match runRetry maxRetries multiplier (count + 1) (nextDelay delay multiplier) rest with
      | some (r, n, ds) => some (r, n + 1, delay :: ds)
      | none => none
    else some (.error c, 1, [])

/-! ### Adapter symbol validation and order-status lookup
(binance_api.cpp, risk_types.h `OrderManager`) -/

/-- Translation of `BinanceApi::validateSymbol` (binance_api.cpp lines
439-452): an empty symbol, or one shorter than 2 or longer than 20
characters, throws `std::invalid_argument`. -/
def validateSymbol (s : String) : Except String Unit :=
  if s = "" then .error "Symbol cannot be empty"
  else if s.length < 2 ∨ s.length > 20 then .error ("Invalid symbol length: " ++ s)
  else .ok ()

/-- The suffix of a character list after the first occurrence of a
pattern, modelling `std::string::find` followed by `substr`; `none`
when the pattern does not occur. -/
def suffixAfter (pat : List Char) : List Char → Option (List Char)
  | [] => none
  | c :: rest =>
    if pat.isPrefixOf (c :: rest) then some ((c :: rest).drop pat.length)
    else suffixAfter pat rest

/-- Leading decimal digits of a character list, accumulated left to
right; `none` when the list starts with no digit.  Models the digits
`std::stoi` consumes. -/
def parseLeadingNat : List Char → Option ℕ → Option ℕ
  | [], acc => acc
  | c :: rest, acc =>
    if c.isDigit then parseLeadingNat rest (some ((acc.getD 0) * 10 + (c.toNat - 48)))
    else acc

/-- An optional minus sign followed by leading digits, modelling
`std::stoi` (which throws when no digit follows, modelled as `none`). -/
def parseLeadingInt (cs : List Char) : Option ℤ :=
  match cs with
  | [] => none
  | c :: rest =>
    if c == Char.ofNat 45 then (parseLeadingNat rest none).map (fun n => -(n : ℤ))
    else (parseLeadingNat (c :: rest) none).map (fun n => (n : ℤ))

/-- Translation of `BinanceApi::extractStatusCode` (binance_api.cpp
lines 491-513): take the three characters after the first "HTTP " and
parse them; else take what stands after the first "Code: " up to the
next comma (required) and parse it; any failure, including neither
pattern occurring, yields 0. -/
def extractStatusCode (msg : String) : ℤ :=
  match suffixAfter "HTTP ".data msg.data with
  | some afterHttp =>
    match parseLeadingInt (afterHttp.take 3) with
    | some n => n
    | none => 0
  | none =>
    match suffixAfter "Code: ".data msg.data with
    | some afterCode =>
      if afterCode.contains (Char.ofNat 44) then
        match parseLeadingInt (afterCode.takeWhile (fun c => !(c == Char.ofNat 44))) with
        | some n => n
        | none => 0
      else 0
    | none => 0

/-- One invocation of the lambda inside `BinanceApi::getOrderStatus`
(binance_api.cpp lines 163-197): `validateSymbol` runs first, and its
exception reaches `executeWithRetry` as the status code extracted from
its message; otherwise the HTTP exchange happens, with outcome
`httpOutcome`. -/
def orderStatusAttempt (symbol : String) (httpOutcome : Except ℤ OrderInfo) :
    Except ℤ OrderInfo :=
  match validateSymbol symbol with
  | .error msg => .error (extractStatusCode msg)
  | .ok _ => httpOutcome

/-- Translation of `BinanceApi::getOrderStatus`: the attempt above run
under `executeWithRetry`.  `maxRetries + 1` attempts are always enough,
so the fallback error is unreachable. -/
def binanceGetOrderStatus (maxRetries : ℕ) (multiplier : ℚ) (delay0 : ℤ)
    (symbol : String) (httpOutcome : Except ℤ OrderInfo) : Except ℤ OrderInfo :=
  match runRetry maxRetries multiplier 0 delay0
      (List.replicate (maxRetries + 1) (orderStatusAttempt symbol httpOutcome)) with
  | some (r, _, _) => r
  | none => .error 0

/-- Translation of `OrderManager::getOrderStatus` (risk_types.h lines
274-291): return the cached record when the id is in `active_orders_`,
else query the exchange adapter with the symbol it was given. -/
def omGetOrderStatus (maxRetries : ℕ) (multiplier : ℚ) (delay0 : ℤ)
    (cache : List (String × OrderInfo)) (symbol id : String)
    (httpOutcome : Except ℤ OrderInfo) : Except ℤ OrderInfo :=
  match lookupOrd cache id with
  | some info => .ok info
  | none => binanceGetOrderStatus maxRetries multiplier delay0 symbol httpOutcome

/-- Translation of the polling loop of `OrderManager::waitForOrderFill`
(risk_types.h lines 302-335), which calls `getOrderStatus("", orderId)`.
`fuel` bounds the iterations, `elapsed`/`timeout` are in milliseconds.
Returns the boolean result together with the number of 100 ms sleeps
performed before returning. -/
def waitLoop (maxRetries : ℕ) (multiplier : ℚ) (delay0 : ℤ)
    (cache : List (String × OrderInfo)) (id : String)
    (httpOutcome : Except ℤ OrderInfo) (timeout : ℕ) :
    ℕ → ℕ → Bool × ℕ
  | 0, _ => (false, 0)
  | fuel + 1, elapsed =>
    match omGetOrderStatus maxRetries multiplier delay0 cache "" id httpOutcome with
    | .error _ => (false, 0)
    | .ok info =>
      if info.status = OrderStatus.FILLED then (true, 0)
      else if info.status = OrderStatus.CANCELED ∨ info.status = OrderStatus.REJECTED ∨
          info.status = OrderStatus.EXPIRED then (false, 0)
      else if elapsed ≥ timeout then (false, 0)
      else
        let r := waitLoop maxRetries multiplier delay0 cache id httpOutcome timeout fuel
          (elapsed + 100)
        (r.1, r.2 + 1)

/-- Entry point of `OrderManager::waitForOrderFill`: the loop starts
with zero elapsed time. -/
def waitForOrderFillModel (maxRetries : ℕ) (multiplier : ℚ) (delay0 : ℤ)
    (cache : List (String × OrderInfo)) (id : String)
    (httpOutcome : Except ℤ OrderInfo) (timeout fuel : ℕ) : Bool × ℕ :=
  waitLoop maxRetries multiplier delay0 cache id httpOutcome timeout fuel 0

/-! ### Risk Controller (src/monitor/alerts/alert_types.h, `RiskManager`) -/

/-- Translation of `RiskManager::checkPositionLimits` (risk_manager.cpp
lines 154-182): reject a size above `max_position_size`, or a total of
the new size plus the absolute sizes of the other symbols' position
risks above `max_total_positions`.  `risks` is `position_risks_`
restricted to the (symbol, size) data the function reads. -/
def checkPositionLimits (maxPositionSize maxTotalPositions : ℚ)
    (risks : List (String × ℚ)) (symbol : String) (size : ℚ) : Bool :=
  if size > maxPositionSize then false
  else
    let total := size + ((risks.filter (fun p => !(p.1 == symbol))).map (fun p => |p.2|)).sum
    if total > maxTotalPositions then false
    else true

/-- Translation of `RiskManager::checkNewPosition` (risk_manager.cpp
lines 109-152).  The persistent `emergency_mode_` flag short-circuits
everything to `false`.  The margin, funding-exposure, volatility and
trading-frequency checks are declared in risk_manager.h but their bodies
are not in the source tree, so their boolean verdicts are taken as
parameters; `checkNewPosition` only branches on those verdicts. -/
def checkNewPosition (emergencyMode : Bool)
    (maxPositionSize maxTotalPositions : ℚ) (risks : List (String × ℚ))
    (symbol : String) (size fundingRate : ℚ)
    (marginOk fundingOk volOk freqOk : Bool) : Bool :=
  if emergencyMode then false
  else
    checkPositionLimits maxPositionSize maxTotalPositions risks symbol size &&
    marginOk && fundingOk && volOk && freqOk

/-! ### Strategy engine (src/unnamed/part_007, `FundingArbitrageEngine`)
and its state (src/unnamed/part_005, `FundingArbitrageState`) -/

/-- One call to `executeTwapOrder` or `executeSingleOrder`
(src/unnamed/part_007): an instruction to trade `quantity` of `symbol`
on the spot or futures leg, buying or selling.  `executeSingleOrder`'s
body is not in the source tree; the claims about the engine concern
which calls it issues and with which arguments. -/
structure ExecCall where
  symbol : String
  quantity : ℚ
  isSpotLeg : Bool
  isBuy : Bool
deriving DecidableEq

/-- Spot and futures position maps of `FundingArbitrageState`
(src/unnamed/part_005 lines 125-126). -/
structure EngineState where
  spot_positions : List (String × ℚ)
  futures_positions : List (String × ℚ)
deriving DecidableEq

/-- Read of `state_.spot_positions[sym]` etc.: `std::map::operator[]`
value-initialises a missing key, so a missing symbol reads as 0. -/
def lookupSize (m : List (String × ℚ)) (s : String) : ℚ :=
  ((m.find? (fun p => p.1 == s)).map Prod.snd).getD 0

/-- Key removal on a position map, modelling `std::map::erase`. -/
def eraseSize (m : List (String × ℚ)) (s : String) : List (String × ℚ) :=
  m.filter (fun p => !(p.1 == s))

/-- Translation of the per-symbol body of
`FundingArbitrageEngine::closePositions` (src/unnamed/part_007 lines
490-519) for a non-empty symbol argument.  When either leg is non-zero:
a sell call sized `|spot|` is issued only if the spot leg is strictly
positive, a sell call sized `|futures|` only if the futures leg is
strictly positive (the TWAP and non-TWAP branches issue the same calls,
TWAP merely slicing them), and then both map entries are erased. -/
def closePositionsOne (st : EngineState) (sym : String) :
    List ExecCall × EngineState :=
  let spotSize := lookupSize st.spot_positions sym
  let futuresSize := lookupSize st.futures_positions sym
  if |spotSize| > 0 ∨ |futuresSize| > 0 then
    ((if spotSize > 0 then [⟨sym, |spotSize|, true, false⟩] else []) ++
     (if futuresSize > 0 then [⟨sym, |futuresSize|, false, false⟩] else []),
     ⟨eraseSize st.spot_positions sym, eraseSize st.futures_positions sym⟩)
  else ([], st)

/-- Translation of `FundingArbitrageEngine::balancePositions`
(src/unnamed/part_007 lines 453-476): when
`|spot + futures| > position_imbalance_tolerance`, issue one call for
half the imbalance — a spot sell when `spot > -futures`, else a futures
buy; otherwise do nothing. -/
def balancePositions (imbalanceTolerance : ℚ) (st : EngineState)
    (sym : String) : List ExecCall :=
  let spotPosition := lookupSize st.spot_positions sym
  let futuresPosition := lookupSize st.futures_positions sym
  let imbalance := |spotPosition + futuresPosition|
  if imbalance > imbalanceTolerance then
    let adjustmentSize := imbalance / 2
    if spotPosition > -futuresPosition then [⟨sym, adjustmentSize, true, false⟩]
    else [⟨sym, adjustmentSize, false, true⟩]
  else []

/-- The per-instrument computation inside
`FundingArbitrageEngine::checkTradingWindow` (src/unnamed/part_007 lines
133-134): `std::chrono::duration_cast<minutes>` truncates toward zero,
which is `Int.tdiv` by 60 on a duration in seconds. -/
def timeToFundingMinutes (nextFundingSec nowSec : ℤ) : ℤ :=
  (nextFundingSec - nowSec).tdiv 60

/-- The per-instrument window test of
`FundingArbitrageEngine::checkTradingWindow` (src/unnamed/part_007 lines
136-137): `time_to_funding <= pre_funding_minutes && time_to_funding > 0`
on the truncated whole-minute count. -/
def instrumentInWindow (nextFundingSec nowSec preFundingMinutes : ℤ) : Bool :=
  decide (timeToFundingMinutes nextFundingSec nowSec ≤ preFundingMinutes) &&
  decide (0 < timeToFundingMinutes nextFundingSec nowSec)

/-- Translation of `FundingArbitrageEngine::checkTradingWindow`
(src/unnamed/part_007 lines 127-145): true when at least one active
instrument is in window. -/
def checkTradingWindow (nextFundingTimes : List ℤ) (nowSec preFundingMinutes : ℤ) :
    Bool :=
  nextFundingTimes.any (fun t => instrumentInWindow t nowSec preFundingMinutes)

/-- Window predicate as the spec words it (spec §4.5 Pre-funding window):
a snapshot is in window iff `0 < next_funding_time - now` and that
difference is at most `pre_funding_minutes` minutes, on exact (uncut)
time differences in seconds.  Written from the spec for comparison with
`instrumentInWindow`, which is translated from the code. -/
def instrumentInWindowSpec (nextFundingSec nowSec preFundingMinutes : ℤ) : Bool :=
  decide (0 < nextFundingSec - nowSec) &&
  decide (nextFundingSec - nowSec ≤ 60 * preFundingMinutes)

/-! ### Drawdown tracking (src/unnamed/part_007, `updateDrawdown`) -/

/-- Translation of `FundingArbitrageEngine::updateDrawdown`
(src/unnamed/part_007 lines 604-638), restricted to the state it reads
and writes: on an empty history nothing changes; otherwise the peak is
the maximum of `hourly_pnl_history`, `current_drawdown` is overwritten
with `(peak - total_pnl) / peak` only when `peak > 0`, and
`max_drawdown` is raised to `current_drawdown` when exceeded.  Returns
the new `(current_drawdown, max_drawdown)`. -/
def updateDrawdown (hourlyPnlHistory : List ℚ)
    (totalPnl currentDrawdown maxDrawdown : ℚ) : ℚ × ℚ :=
  match hourlyPnlHistory with
  | [] => (currentDrawdown, maxDrawdown)
  | h :: t =>
    let peak := t.foldl max h
    let cd := if peak > 0 then (peak - totalPnl) / peak else currentDrawdown
    let md := if cd > maxDrawdown then cd else maxDrawdown
    (cd, md)

/-! ### Concrete fixtures used by the theorems -/

/-- A pair with spot leg +0.01 and futures leg -0.01, the canonical
long-spot short-futures pair. -/
def c1State : EngineState :=
  ⟨[("BTCUSDT", 1/100)], [("BTCUSDT", -(1/100))]⟩

/-- The pair state of spec scenario 4: spot leg filled 0.01, futures leg
filled -0.007. -/
def c3State : EngineState :=
  ⟨[("BTCUSDT", 1/100)], [("BTCUSDT", -(7/1000))]⟩

/-- A cached, active (NEW) order record. -/
def c2OrderNew : OrderInfo :=
  { order_id := "1", symbol := "BTCUSDT", side := .BUY, type := .LIMIT,
    status := .NEW, original_quantity := 1, executed_quantity := 0, price := 100 }

/-- A valid STOP_LIMIT order request. -/
def c6Request : OrderRequest :=
  { symbol := "BTCUSDT", side := .BUY, type := .STOP_LIMIT, quantity := 1, price := 5 }

/-- An order record the exchange reports as FILLED. -/
def c10FilledInfo : OrderInfo :=
  { order_id := "42", symbol := "BTCUSDT", side := .BUY, type := .LIMIT,
    status := .FILLED, original_quantity := 1, executed_quantity := 1, price := 100 }

/-! ### Helper lemmas -/

/-- Looking up a key just erased from the cache yields nothing. -/
theorem lookupOrd_eraseOrd (m : List (String × OrderInfo)) (id : String) :
    lookupOrd (eraseOrd m id) id = none := by
  induction m with
  | nil => rfl
  | cons p t ih =>
    by_cases h : p.1 == id
    · simp [eraseOrd, List.filter_cons, h] at ih ⊢
      exact ih
    · simp only [eraseOrd, List.filter_cons, h] at ih ⊢
      simp only [lookupOrd, List.find?, h] at ih ⊢
      exact ih

/-- Mapping the CANCELED patch over the cache rewrites the looked-up
record's status. -/
theorem lookupOrd_mapCanceled (id : String) (o : OrderInfo) :
    ∀ (m : List (String × OrderInfo)), lookupOrd m id = some o →
      lookupOrd (m.map (fun p =>
          if p.1 == id then (p.1, { p.2 with status := OrderStatus.CANCELED }) else p)) id
        = some { o with status := OrderStatus.CANCELED }
  | [], h => by simp [lookupOrd] at h
  | p :: t, h => by
    by_cases hp : p.1 == id
    · simp only [lookupOrd, List.find?, hp] at h
      cases h
      simp [lookupOrd, List.find?, hp]
    · simp only [lookupOrd, List.find?, hp] at h
      have ih := lookupOrd_mapCanceled id o t h
      simpa [lookupOrd, List.find?, hp] using ih

/-- A guarded maximum written as the source writes it. -/
theorem ite_gt_eq_max (a b : ℚ) : (if a > b then a else b) = max b a := by
  split_ifs with hab
  · exact (max_eq_right hab.le).symm
  · exact (max_eq_left (not_lt.mp hab)).symm

/-- Equation of `runRetry` on a failed attempt that is not retried. -/
theorem runRetry_error_stop {α : Type} (maxRetries : ℕ) (multiplier : ℚ)
    (count : ℕ) (delay : ℤ) (c : ℤ) (rest : List (Except ℤ α))
    (h : shouldRetry maxRetries c count = false) :
    runRetry maxRetries multiplier count delay (Except.error c :: rest)
      = some (.error c, 1, []) := by
  unfold runRetry
  simp [h]

/-- Equation of `runRetry` on a failed attempt that is retried, given
the outcome of the remaining run. -/
theorem runRetry_error_retry_some {α : Type} (maxRetries : ℕ) (multiplier : ℚ)
    (count : ℕ) (delay : ℤ) (c : ℤ) (rest : List (Except ℤ α))
    (r : Except ℤ α) (n : ℕ) (ds : List ℤ)
    (h : shouldRetry maxRetries c count = true)
    (hrec : runRetry maxRetries multiplier (count + 1) (nextDelay delay multiplier) rest
      = some (r, n, ds)) :
    runRetry maxRetries multiplier count delay (Except.error c :: rest)
      = some (r, n + 1, delay :: ds) := by
  conv_lhs => rw [runRetry.eq_def]
  simp only [h, if_true]
  rw [hrec]

/-- A status code outside the retriable set is never retried. -/
theorem shouldRetry_false_of_not_retriable (maxRetries count : ℕ) (c : ℤ)
    (h : retriableStatusCodes.contains c = false) :
    shouldRetry maxRetries c count = false := by
  unfold shouldRetry
  split
  · rfl
  · exact h

/-- A run whose first `maxRetries - count` attempts all fail with
retriable codes surfaces the next attempt's error, having made every
attempt and slept the geometric backoff sequence. -/
theorem runRetry_exhaust {α : Type} (maxRetries : ℕ) (multiplier : ℚ) :
    ∀ (errs : List ℤ) (count : ℕ) (delay : ℤ) (c : ℤ) (rest : List (Except ℤ α)),
      (∀ x ∈ errs, retriableStatusCodes.contains x = true) →
      count + errs.length = maxRetries →
      runRetry maxRetries multiplier count delay
          (errs.map Except.error ++ Except.error c :: rest)
        = some (.error c, errs.length + 1, delaysFrom multiplier delay errs.length) := by
  intro errs
  induction errs with
  | nil =>
    intro count delay c rest _ hlen
    simp only [List.length_nil] at hlen
    simp only [List.map_nil, List.nil_append, List.length_nil, delaysFrom]
    apply runRetry_error_stop
    unfold shouldRetry
    rw [if_pos (by omega : count ≥ maxRetries)]
  | cons e t ih =>
    intro count delay c rest hret hlen
    simp only [List.length_cons] at hlen
    have hsr : shouldRetry maxRetries e count = true := by
      unfold shouldRetry
      rw [if_neg (by omega : ¬ count ≥ maxRetries)]
      exact hret e (by simp)
    have hih := ih (count + 1) (nextDelay delay multiplier) c rest
      (fun x hx => hret x (by simp [hx])) (by omega)
    have hstep := runRetry_error_retry_some maxRetries multiplier count delay e
      (t.map Except.error ++ Except.error c :: rest) (.error c) (t.length + 1)
      (delaysFrom multiplier (nextDelay delay multiplier) t.length) hsr hih
    rw [List.map_cons, List.cons_append, hstep]
    simp [delaysFrom]

/-- A run whose first attempts fail with retriable codes, within the
retry budget, surfaces the following success, having slept the
geometric backoff sequence. -/
theorem runRetry_success {α : Type} (maxRetries : ℕ) (multiplier : ℚ) :
    ∀ (errs : List ℤ) (count : ℕ) (delay : ℤ) (v : α) (rest : List (Except ℤ α)),
      (∀ x ∈ errs, retriableStatusCodes.contains x = true) →
      count + errs.length ≤ maxRetries →
      runRetry maxRetries multiplier count delay
          (errs.map Except.error ++ Except.ok v :: rest)
        = some (.ok v, errs.length + 1, delaysFrom multiplier delay errs.length) := by
  intro errs
  induction errs with
  | nil =>
    intro count delay v rest _ _
    simp [delaysFrom, runRetry]
  | cons e t ih =>
    intro count delay v rest hret hlen
    simp only [List.length_cons] at hlen
    have hsr : shouldRetry maxRetries e count = true := by
      unfold shouldRetry
      rw [if_neg (by omega : ¬ count ≥ maxRetries)]
      exact hret e (by simp)
    have hih := ih (count + 1) (nextDelay delay multiplier) v rest
      (fun x hx => hret x (by simp [hx])) (by omega)
    have hstep := runRetry_error_retry_some maxRetries multiplier count delay e
      (t.map Except.error ++ Except.ok v :: rest) (.ok v) (t.length + 1)
      (delaysFrom multiplier (nextDelay delay multiplier) t.length) hsr hih
    rw [List.map_cons, List.cons_append, hstep]
    simp [delaysFrom]

/-! ### Claim theorems -/

/-- C1: evaluation of `closePositionsOne` at the failing input, the
canonical pair with spot leg +0.01 and futures leg -0.01.  The claim
says closing issues orders sized to the absolute size of each leg
regardless of sign; the code issues only the spot sell of 0.01 — the
short futures leg, of absolute size 0.01, receives no closing call —
and still erases both entries. -/
theorem c1_closePositions_failing_input :
    closePositionsOne c1State "BTCUSDT"
      = ([⟨"BTCUSDT", 1/100, true, false⟩], ⟨[], []⟩) ∧
    lookupSize c1State.futures_positions "BTCUSDT" = -(1/100) := by
  constructor
  · simp only [closePositionsOne, c1State, lookupSize, eraseSize, List.find?]
    norm_num
  · simp [c1State, lookupSize, List.find?]

/-- C2 counterexample: a successful `cancelOrder` on a cached record
leaves the record in the active-orders index with the terminal status
CANCELED, so the record is not absent from the index. -/
theorem c2_cancelOrder_counterexample :
    (cancelOrderModel [("1", c2OrderNew)] "1" (Except.ok true)).1 = true ∧
    lookupOrd (cancelOrderModel [("1", c2OrderNew)] "1" (Except.ok true)).2 "1"
      = some { c2OrderNew with status := OrderStatus.CANCELED } ∧
    isTerminalStatus OrderStatus.CANCELED = true := by
  decide

/-- C2 amended: `updateOrderCache` (hence any ORDER_UPDATE processed by
`handleOrderUpdate`) evicts a record with terminal status from the
active-orders index, but a successful `cancelOrder` instead rewrites the
cached record's status to CANCELED in place, leaving it in the index. -/
theorem c2_terminal_eviction_amended :
    (∀ (m : List (String × OrderInfo)) (o : OrderInfo),
      isTerminalStatus o.status = true →
        lookupOrd (updateOrderCache m o) o.order_id = none) ∧
    (∀ (m : List (String × OrderInfo)) (id : String) (o : OrderInfo),
      lookupOrd m id = some o →
        lookupOrd (cancelOrderModel m id (Except.ok true)).2 id
          = some { o with status := OrderStatus.CANCELED }) := by
  constructor
  · intro m o h
    unfold updateOrderCache
    rw [if_pos h]
    exact lookupOrd_eraseOrd m o.order_id
  · intro m id o h
    have hs : (lookupOrd m id).isSome := by rw [h]; rfl
    show lookupOrd (setCanceledInCache m id) id = _
    unfold setCanceledInCache
    rw [if_pos hs]
    exact lookupOrd_mapCanceled id o m h

/-- C2 amended witness: the amended theorem at the concrete cached NEW
order. -/
theorem c2_terminal_eviction_amended_witness :
    lookupOrd (cancelOrderModel [("1", c2OrderNew)] "1" (Except.ok true)).2 "1"
      = some { c2OrderNew with status := OrderStatus.CANCELED } :=
  c2_terminal_eviction_amended.2 [("1", c2OrderNew)] "1" c2OrderNew (by decide)

/-- C3 counterexample: with spot leg 0.01 and futures leg -0.007 the
imbalance is 0.003, which is not greater than the default tolerance
0.01, so `balancePositions` places no order at all — in particular no
spot SELL of 0.0015. -/
theorem c3_rebalance_counterexample :
    balancePositions (1/100) c3State "BTCUSDT" = [] ∧
    lookupSize c3State.spot_positions "BTCUSDT"
      + lookupSize c3State.futures_positions "BTCUSDT" = 3/1000 ∧
    ¬ ((1 : ℚ)/100 < 3/1000) := by
  refine ⟨?_, ?_, by norm_num⟩
  · simp only [balancePositions, c3State, lookupSize, List.find?]
    norm_num [abs_le]
  · simp only [c3State, lookupSize, List.find?]
    norm_num

/-- C3 amended: rebalancing is a no-op whenever the imbalance is within
the tolerance — in particular for the claimed fills 0.01 and -0.007
under the default tolerance 0.01 — and places a single spot SELL of
imbalance/2 only when the imbalance exceeds the tolerance with the spot
side over-weighted. -/
theorem c3_rebalance_amended :
    (∀ (tol : ℚ) (st : EngineState) (sym : String),
      (|lookupSize st.spot_positions sym + lookupSize st.futures_positions sym| ≤ tol →
        balancePositions tol st sym = []) ∧
      (tol < |lookupSize st.spot_positions sym + lookupSize st.futures_positions sym| →
        -(lookupSize st.futures_positions sym) < lookupSize st.spot_positions sym →
        balancePositions tol st sym
          = [⟨sym, |lookupSize st.spot_positions sym
                + lookupSize st.futures_positions sym| / 2, true, false⟩])) ∧
    balancePositions (1/100) c3State "BTCUSDT" = [] := by
  constructor
  · intro tol st sym
    constructor
    · intro h
      simp only [balancePositions]
      rw [if_neg (not_lt.mpr h)]
    · intro h1 h2
      simp only [balancePositions]
      rw [if_pos h1, if_pos h2]
  · simp only [balancePositions, c3State, lookupSize, List.find?]
    norm_num [abs_le]

/-- C3 amended witness: the amended theorem's no-op branch at the
concrete scenario state. -/
theorem c3_rebalance_amended_witness :
    balancePositions (1/100) c3State "BTCUSDT" = [] :=
  (c3_rebalance_amended.1 (1/100) c3State "BTCUSDT").1
    (by simp only [c3State, lookupSize, List.find?]; norm_num [abs_le])

/-- C4 counterexample: a snapshot 30 seconds before funding is in
window by the spec's exact-time test but out of window for the code,
because `duration_cast<minutes>` truncates 30 s to 0 whole minutes. -/
theorem c4_window_counterexample :
    instrumentInWindowSpec 30 0 60 = true ∧ instrumentInWindow 30 0 60 = false := by
  decide

/-- C4 amended: the window check runs on the truncated whole-minute
count, so for a non-negative `pre_funding_minutes` a snapshot is in
window iff its time to funding is at least 60 seconds and at most
`60 * pre_funding_minutes + 59` seconds; sub-minute times to funding
(such as 30 s) are out of window. -/
theorem c4_window_amended :
    ∀ (next now pre : ℤ), 0 ≤ pre →
      (instrumentInWindow next now pre = true ↔
        (60 ≤ next - now ∧ next - now ≤ 60 * pre + 59)) := by
  intro next now pre _
  unfold instrumentInWindow timeToFundingMinutes
  simp only [Bool.and_eq_true, decide_eq_true_eq]
  constructor
  · rintro ⟨h1, h2⟩
    have hnn : 0 ≤ next - now := by
      by_contra hneg
      push_neg at hneg
      have hx : (next - now).tdiv 60 ≤ 0 := by
        have he : (-(-(next - now))).tdiv 60 = -((-(next - now)).tdiv 60) :=
          Int.neg_tdiv (-(next - now)) 60
        rw [neg_neg] at he
        rw [he]
        have : 0 ≤ (-(next - now)).tdiv 60 :=
          Int.tdiv_nonneg (by omega) (by norm_num)
        omega
      omega
    rw [Int.tdiv_eq_ediv hnn (by norm_num)] at h1 h2
    omega
  · rintro ⟨h1, h2⟩
    have hnn : 0 ≤ next - now := by omega
    rw [Int.tdiv_eq_ediv hnn (by norm_num)]
    refine ⟨by omega, by omega⟩

/-- C4 amended witness: a snapshot exactly `pre_funding_minutes` = 60
minutes (3600 s) before funding is in window. -/
theorem c4_window_amended_witness :
    instrumentInWindow 3600 0 60 = true :=
  (c4_window_amended 3600 0 60 (by decide)).mpr (by decide)

/-- C5: the adapter's retry loop.  A failure with a status code outside
{408, 429, 500, 502, 503, 504} is surfaced unchanged after a single
attempt; a run of `max_retries` retriable failures consumes every retry
with the geometric backoff sleeps `delaysFrom` and then surfaces the
next failure; and a success after at most `max_retries` retriable
failures is returned, again with the geometric backoff sleeps. -/
theorem c5_retry_policy :
    ∀ (maxRetries : ℕ) (multiplier : ℚ) (delay0 : ℤ),
      (∀ (c : ℤ) (rest : List (Except ℤ ℕ)),
        retriableStatusCodes.contains c = false →
        runRetry maxRetries multiplier 0 delay0 (Except.error c :: rest)
          = some (.error c, 1, [])) ∧
      (∀ (errs : List ℤ) (c : ℤ) (rest : List (Except ℤ ℕ)),
        (∀ x ∈ errs, retriableStatusCodes.contains x = true) →
        errs.length = maxRetries →
        runRetry maxRetries multiplier 0 delay0
            (errs.map Except.error ++ Except.error c :: rest)
          = some (.error c, maxRetries + 1, delaysFrom multiplier delay0 maxRetries)) ∧
      (∀ (errs : List ℤ) (v : ℕ) (rest : List (Except ℤ ℕ)),
        (∀ x ∈ errs, retriableStatusCodes.contains x = true) →
        errs.length ≤ maxRetries →
        runRetry maxRetries multiplier 0 delay0
            (errs.map Except.error ++ Except.ok v :: rest)
          = some (.ok v, errs.length + 1, delaysFrom multiplier delay0 errs.length)) := by
  intro maxRetries multiplier delay0
  refine ⟨?_, ?_, ?_⟩
  · intro c rest h
    exact runRetry_error_stop _ _ _ _ _ _ (shouldRetry_false_of_not_retriable _ _ _ h)
  · intro errs c rest hret hlen
    have := runRetry_exhaust maxRetries multiplier errs 0 delay0 c rest hret (by omega)
    rw [hlen] at this
    exact this
  · intro errs v rest hret hlen
    exact runRetry_success maxRetries multiplier errs 0 delay0 v rest hret (by omega)

/-- C5 witness: with the default parameters (3 retries, multiplier 2,
initial delay 1000 ms), four successive retriable failures surface the
final 429 after 4 attempts with sleeps 1000, 2000, 4000 ms. -/
theorem c5_retry_policy_witness :
    runRetry 3 2 0 1000
        ([Except.error 429, Except.error 500, Except.error 503,
          Except.error 429] : List (Except ℤ ℕ))
      = some (Except.error 429, 4, [1000, 2000, 4000]) := by
  have h := (c5_retry_policy 3 2 1000).2.1 [429, 500, 503] 429
    ([] : List (Except ℤ ℕ)) (by decide) (by decide)
  simp only [List.map_cons, List.map_nil, List.cons_append, List.nil_append] at h
  rw [h]
  norm_num [delaysFrom, nextDelay]

/-- C6 counterexample: with `use_post_only` enabled, a valid STOP_LIMIT
request is promoted to POST_ONLY by `placeOrder`, not placed with its
requested type unchanged. -/
theorem c6_postOnly_counterexample :
    placeOrderAdjusted true (1/1000) 100 c6Request
      = Except.ok { symbol := "BTCUSDT", side := OrderSide.BUY,
                    type := OrderType.POST_ONLY, quantity := 1, price := 1001/10 } ∧
    c6Request.type = OrderType.STOP_LIMIT ∧
    OrderType.POST_ONLY ≠ OrderType.STOP_LIMIT := by
  refine ⟨?_, rfl, by decide⟩
  simp only [placeOrderAdjusted, validateOrderRequest, adjustRequest,
    calculateSlippagePrice, c6Request]
  norm_num
  rw [if_neg (show ¬ ("BTCUSDT" = "") from by decide),
      if_neg (show ¬ (OrderType.STOP_LIMIT = OrderType.MARKET) from by decide)]

/-- C6 amended: with `use_post_only` enabled, `placeOrder` promotes the
request's type to POST_ONLY iff the requested type is not MARKET (LIMIT,
STOP_LIMIT, TAKE_PROFIT, ... alike); a MARKET request keeps its type,
and with `use_post_only` disabled no type changes. -/
theorem c6_postOnly_amended :
    ∀ (threshold markPrice : ℚ) (r : OrderRequest),
      (adjustRequest true threshold markPrice r).type
        = (if r.type = OrderType.MARKET then r.type else OrderType.POST_ONLY) ∧
      (adjustRequest false threshold markPrice r).type = r.type ∧
      (validateOrderRequest r = true →
        placeOrderAdjusted true threshold markPrice r
          = Except.ok (adjustRequest true threshold markPrice r)) := by
  intro threshold markPrice r
  refine ⟨?_, ?_, ?_⟩
  · by_cases h : r.type = OrderType.MARKET <;> simp [adjustRequest, h]
  · by_cases h : r.type = OrderType.MARKET <;> simp [adjustRequest, h]
  · intro hv
    unfold placeOrderAdjusted
    rw [if_pos hv]

/-- C6 amended witness: the amended theorem's placement branch at the
concrete STOP_LIMIT request. -/
theorem c6_postOnly_amended_witness :
    placeOrderAdjusted true (1/1000) 100 c6Request
      = Except.ok (adjustRequest true (1/1000) 100 c6Request) :=
  (c6_postOnly_amended (1/1000) 100 c6Request).2.2
    (by simp only [validateOrderRequest, c6Request]
        rw [if_neg (show ¬ ("BTCUSDT" = "") from by decide)]
        norm_num)

/-- C7: while the persistent emergency-mode flag is set,
`checkNewPosition` returns false for every symbol, size, funding rate,
limit configuration and oracle verdict. -/
theorem c7_emergency_vetoes_all :
    ∀ (maxPositionSize maxTotalPositions : ℚ) (risks : List (String × ℚ))
      (symbol : String) (size fundingRate : ℚ)
      (marginOk fundingOk volOk freqOk : Bool),
      checkNewPosition true maxPositionSize maxTotalPositions risks symbol size
        fundingRate marginOk fundingOk volOk freqOk = false := by
  intro maxPositionSize maxTotalPositions risks symbol size fundingRate
    marginOk fundingOk volOk freqOk
  rfl

/-- C8 counterexample: with history [-5] (peak -5 ≤ 0), current PnL 0,
current_drawdown 0.3 and max_drawdown 0.1, the code leaves
current_drawdown at 0.3 (and raises max_drawdown to it) instead of
setting current_drawdown to 0 as the claim states. -/
theorem c8_drawdown_counterexample :
    updateDrawdown [-5] 0 (3/10) (1/10) = (3/10, 3/10) ∧ (3/10 : ℚ) ≠ 0 := by
  refine ⟨?_, by norm_num⟩
  simp only [updateDrawdown, List.foldl]
  norm_num

/-- C8 amended: on a non-empty history with peak > 0 the update sets
current_drawdown to (peak - current)/peak and max_drawdown to the
maximum of its previous value and the new current_drawdown; when
peak ≤ 0 current_drawdown is left unchanged (not set to 0), and
max_drawdown is still raised to it if it exceeds the old maximum.  For
the series [100,90,80,70,60,50] with current PnL 50 the result is
current_drawdown = 0.5. -/
theorem c8_drawdown_amended :
    (∀ (h : ℚ) (t : List ℚ) (pnl cd md : ℚ),
      (0 < t.foldl max h →
        updateDrawdown (h :: t) pnl cd md
          = ((t.foldl max h - pnl) / t.foldl max h,
             max md ((t.foldl max h - pnl) / t.foldl max h))) ∧
      (t.foldl max h ≤ 0 →
        updateDrawdown (h :: t) pnl cd md = (cd, max md cd))) ∧
    updateDrawdown [100, 90, 80, 70, 60, 50] 50 0 (1/10) = (1/2, 1/2) := by
  constructor
  · intro h t pnl cd md
    constructor
    · intro hp
      simp only [updateDrawdown]
      rw [if_pos hp, ite_gt_eq_max]
    · intro hp
      simp only [updateDrawdown]
      rw [if_neg (not_lt.mpr hp), ite_gt_eq_max]
  · simp only [updateDrawdown, List.foldl]
    norm_num

/-- C8 amended witness: the peak-positive branch of the amended theorem
at the concrete series [100,90,80,70,60,50] with current PnL 50. -/
theorem c8_drawdown_amended_witness :
    updateDrawdown [100, 90, 80, 70, 60, 50] 50 0 (1/10)
      = ((([90, 80, 70, 60, 50] : List ℚ).foldl max 100 - 50)
            / ([90, 80, 70, 60, 50] : List ℚ).foldl max 100,
         max (1/10) ((([90, 80, 70, 60, 50] : List ℚ).foldl max 100 - 50)
            / ([90, 80, 70, 60, 50] : List ℚ).foldl max 100)) :=
  (c8_drawdown_amended.1 100 [90, 80, 70, 60, 50] 50 0 (1/10)).1
    (by simp only [List.foldl]; norm_num)

/-- C9 counterexample: the code's only string-to-MarginType conversion
(in `getOpenPositions`) compares against the lowercase "isolated", so
ISOLATED → "ISOLATED" → CROSS: the round trip fails; and an unknown
string silently maps to CROSS instead of failing. -/
theorem c9_marginType_counterexample :
    marginTypeFromApi (marginTypeToString MarginType.ISOLATED) = MarginType.CROSS ∧
    MarginType.CROSS ≠ MarginType.ISOLATED ∧
    marginTypeFromApi "NOT_A_MARGIN_TYPE" = MarginType.CROSS := by
  decide

/-- C9 amended: for order side, order type and order status the
string round trip holds for every defined value and unknown strings
fail with an invalid-argument error; time-in-force, position side and
margin type have to-string conversions only, and the margin-type parse
actually used by the code maps "isolated" to ISOLATED and every other
string — including the to-string image "ISOLATED" — to CROSS. -/
theorem c9_enum_roundtrip_amended :
    (∀ s : OrderSide, stringToOrderSide (orderSideToString s) = Except.ok s) ∧
    (∀ t : OrderType, stringToOrderType (orderTypeToString t) = Except.ok t) ∧
    (∀ st : OrderStatus, stringToOrderStatus (orderStatusToString st) = Except.ok st) ∧
    (∀ s : String, s ∉ (["BUY", "SELL"] : List String) →
      stringToOrderSide s = Except.error ("Invalid order side: " ++ s)) ∧
    (∀ s : String, s ∉ (["MARKET", "LIMIT", "POST_ONLY", "STOP_MARKET", "STOP_LIMIT",
        "TAKE_PROFIT", "LIQUIDATION"] : List String) →
      stringToOrderType s = Except.error ("Invalid order type: " ++ s)) ∧
    (∀ s : String, s ∉ (["NEW", "PARTIALLY_FILLED", "FILLED", "CANCELED", "REJECTED",
        "EXPIRED", "PENDING_CANCEL"] : List String) →
      stringToOrderStatus s = Except.error ("Invalid order status: " ++ s)) ∧
    marginTypeFromApi "isolated" = MarginType.ISOLATED ∧
    marginTypeFromApi (marginTypeToString MarginType.ISOLATED) = MarginType.CROSS := by
  refine ⟨?_, ?_, ?_, ?_, ?_, ?_, rfl, rfl⟩
  · intro s; cases s <;> rfl
  · intro t; cases t <;> rfl
  · intro st; cases st <;> rfl
  · intro s hs
    simp only [List.mem_cons, List.not_mem_nil, or_false] at hs
    push_neg at hs
    obtain ⟨h1, h2⟩ := hs
    simp [stringToOrderSide, h1, h2]
  · intro s hs
    simp only [List.mem_cons, List.not_mem_nil, or_false] at hs
    push_neg at hs
    obtain ⟨h1, h2, h3, h4, h5, h6, h7⟩ := hs
    simp [stringToOrderType, h1, h2, h3, h4, h5, h6, h7]
  · intro s hs
    simp only [List.mem_cons, List.not_mem_nil, or_false] at hs
    push_neg at hs
    obtain ⟨h1, h2, h3, h4, h5, h6, h7⟩ := hs
    simp [stringToOrderStatus, h1, h2, h3, h4, h5, h6, h7]

/-- C9 amended witness: the unknown-string branch of the amended theorem
at the concrete string "HOLD". -/
theorem c9_enum_roundtrip_amended_witness :
    stringToOrderSide "HOLD" = Except.error ("Invalid order side: " ++ "HOLD") :=
  c9_enum_roundtrip_amended.2.2.2.1 "HOLD" (by decide)

/-- C10: for an order id absent from the active-orders cache,
`waitForOrderFill` returns false on its first iteration with zero
sleeps — regardless of the timeout and of what the exchange would
report, including a FILLED record — because the cache-miss path calls
the adapter with an empty symbol, whose validation failure carries no
extractable status code (code 0, not retriable) and is surfaced as a
wait failure. -/
theorem c10_waitForOrderFill_cacheMiss :
    ∀ (maxRetries : ℕ) (multiplier : ℚ) (delay0 : ℤ)
      (cache : List (String × OrderInfo)) (id : String)
      (httpOutcome : Except ℤ OrderInfo) (timeout fuel : ℕ),
      lookupOrd cache id = none →
      (waitForOrderFillModel maxRetries multiplier delay0 cache id httpOutcome
          timeout (fuel + 1) = (false, 0) ∧
       omGetOrderStatus maxRetries multiplier delay0 cache "" id httpOutcome
          = Except.error 0 ∧
       validateSymbol "" = Except.error "Symbol cannot be empty") := by
  intro maxRetries multiplier delay0 cache id httpOutcome timeout fuel hmiss
  have hattempt : orderStatusAttempt "" httpOutcome = Except.error 0 := rfl
  have hcontains : retriableStatusCodes.contains (0 : ℤ) = false := by decide
  have hbin : binanceGetOrderStatus maxRetries multiplier delay0 "" httpOutcome
      = Except.error 0 := by
    unfold binanceGetOrderStatus
    rw [hattempt, List.replicate_succ,
        runRetry_error_stop _ _ _ _ _ _
          (shouldRetry_false_of_not_retriable _ _ _ hcontains)]
  have hom : omGetOrderStatus maxRetries multiplier delay0 cache "" id httpOutcome
      = Except.error 0 := by
    unfold omGetOrderStatus
    rw [hmiss, hbin]
  refine ⟨?_, hom, rfl⟩
  simp only [waitForOrderFillModel, waitLoop, hom]

/-- C10 witness: an empty cache, an id whose order the exchange reports
FILLED, a 5000 ms timeout and fuel for ten iterations still yield
(false, 0 sleeps). -/
theorem c10_waitForOrderFill_cacheMiss_witness :
    waitForOrderFillModel 3 2 1000 [] "42" (Except.ok c10FilledInfo) 5000 (9 + 1)
      = (false, 0) :=
  (c10_waitForOrderFill_cacheMiss 3 2 1000 [] "42" (Except.ok c10FilledInfo)
    5000 9 (by decide)).1

end FundingArb
